import Mathlib

/-!
Shallow embedding of the `MedicalChatbot` pipeline from `compass.py`.

The class methods become Lean functions.  The two external network
collaborators (the Compass search backend and the Cohere generative chat
backend) are passed in as function parameters: the search backend as
`String → Nat → Except String SearchResults` (it may fail with an error
message) and the generative backend as `String → List Doc → GenResponse`.
The fixed preamble, model name and temperature of the Cohere call are
configuration constants absorbed into the backend parameter; the
`st.error` logging call in the retriever is a UI side effect and is
dropped from the functional model.  Python string operations
(slicing, `str.join`, `str.capitalize`, substring `in`) are modelled by
explicit Lean functions mirroring their semantics on ASCII text.
-/

/-- One entry of a `hit.content` mapping: association list of string keys
to string values, with `pyDictGet` modelling Python `dict.get(key, default)`. -/
structure Hit where
  content : List (String × String)
deriving DecidableEq

/-- The result object of `compass_client.search_chunks`. -/
structure SearchResults where
  hits : List Hit
deriving DecidableEq

/-- A retrieved document as built by `get_relevant_chunks`:
a dict with keys `title` and `snippet`. -/
structure Doc where
  title : String
  snippet : String
deriving DecidableEq

/-- A conversation turn: a dict with keys `role` and `content`. -/
structure Turn where
  role : String
  content : String
deriving DecidableEq

/-- A raw citation object returned by the Cohere chat endpoint, with
fields `start`, `end` and `document_ids`.  Offsets are Python ints. -/
structure RawCitation where
  start : Int
  stop : Int
  document_ids : List String
deriving DecidableEq

/-- A structured citation as built in `answer_with_chat`:
a dict with keys `text` and `doc_ids`. -/
structure StructuredCitation where
  text : String
  doc_ids : List String
deriving DecidableEq

/-- The response object of `co.chat`: fields `text` and `citations`,
the latter possibly absent (`None`). -/
structure GenResponse where
  text : String
  citations : Option (List RawCitation)
deriving DecidableEq

/-- The dict returned by `MedicalChatbot.chat`. -/
structure PipelineResult where
  query : String
  answer : String
  citations : List StructuredCitation
deriving DecidableEq

/-- Python `dict.get(key, default)` on an association list. -/
def pyDictGet (d : List (String × String)) (key default : String) : String :=
  (d.lookup key).getD default

/-- Resolution of one Python slice index `i` against a sequence of
length `n`: negative indices count from the end (clamped below at 0),
nonnegative indices are clamped above at `n`. -/
def pyIndex (n : Nat) (i : Int) : Nat :=
  if i < 0 then ((n : Int) + i).toNat else min i.toNat n

/-- Python string slicing `s[start:stop]`: the characters at positions
`pyIndex start ≤ p < pyIndex stop`.  Total; never raises. -/
def pySlice (s : String) (start stop : Int) : String :=
  String.mk ((s.data.take (pyIndex s.length stop)).drop (pyIndex s.length start))

/-- The substring `s[a:b]` for in-bounds offsets `0 ≤ a ≤ b ≤ s.length`:
the characters at positions `a, a+1, ..., b-1`. -/
def sliceNat (s : String) (a b : Nat) : String :=
  String.mk ((s.data.drop a).take (b - a))

/-- Python `sep.join(l)`. -/
def pyJoin (sep : String) : List String → String
  | [] => ""
  | a :: t => t.foldl (fun acc x => acc ++ sep ++ x) a

/-- Python `str.lower()` (ASCII model). -/
def pyLower (s : String) : String :=
  String.mk (s.data.map Char.toLower)

/-- Python `str.strip()`: remove leading and trailing whitespace. -/
def pyStrip (s : String) : String :=
  String.mk (((s.data.dropWhile Char.isWhitespace).reverse.dropWhile Char.isWhitespace).reverse)

/-- Python `str.capitalize()`: first character uppercased, the rest
lowercased. -/
def pyCapitalize (s : String) : String :=
  match s.data with
  | [] => ""
  | c :: rest => String.mk (c.toUpper :: rest.map Char.toLower)

/-- Auxiliary scan for Python substring containment. -/
def listContainsSub (sub : List Char) : List Char → Bool
  | [] => sub.isEmpty
  | c :: t => sub.isPrefixOf (c :: t) || listContainsSub sub t

/-- Python substring test `sub in s`. -/
def containsSubstr (s sub : String) : Bool :=
  listContainsSub sub.data s.data

/-- The fixed greeting set of `is_simple_greeting`. -/
def greetings : List String :=
  ["hi", "hello", "hey", "good morning", "good afternoon", "good evening"]

/-- The normalisation applied by `is_simple_greeting`: keep only
alphanumeric and whitespace characters, strip, lowercase. -/
def normalize_query (query : String) : String :=
  pyLower (pyStrip (String.mk (query.data.filter fun ch => ch.isAlphanum || ch.isWhitespace)))

/-- `MedicalChatbot.is_simple_greeting`. -/
def is_simple_greeting (query : String) : Bool :=
  greetings.contains (normalize_query query)

/-- The document dict built for the hit at position `idx` of the loop in
`get_relevant_chunks`: positional title and the text content. -/
def hitDoc (p : Nat × Hit) : Doc :=
  { title := "doc_" ++ toString p.1, snippet := pyDictGet p.2.content "text" "" }

/-- `MedicalChatbot.get_relevant_chunks`: calls the search backend once;
on any error returns the empty list; on success labels the hits
positionally `doc_0`, `doc_1`, ... in hit order. -/
def get_relevant_chunks (search_chunks : String → Nat → Except String SearchResults)
    (query : String) (limit : Nat) : List Doc :=
  match search_chunks query limit with
  | Except.error _ => []
  | Except.ok search_results =>
    if search_results.hits.isEmpty then []
    else search_results.hits.enum.map hitDoc

/-- `MedicalChatbot.rerank_chunks`: pass-through truncation to the first
`top_n` documents (the `query` argument is unused in the source too). -/
def rerank_chunks (query : String) (documents : List Doc) (top_n : Nat) : List Doc :=
  if documents.isEmpty then [] else documents.take top_n

/-- The combined prompt built in `answer_with_chat`: history serialised
as `Role: content` lines joined by newlines, then `User: {query}`;
just the query when the history is empty. -/
def combinedQuery (query : String) (history : List Turn) : String :=
  if history.isEmpty then query
  else
    pyJoin "\n" (history.map fun msg => pyCapitalize msg.role ++ ": " ++ msg.content)
      ++ "\nUser: " ++ query

/-- The citation-mapping loop of `answer_with_chat`: when citations are
absent the structured list is empty; otherwise each raw citation is
turned into `{text := answer[start:stop], doc_ids := document_ids}`. -/
def mapCitations (answer : String) : Option (List RawCitation) → List StructuredCitation
  | none => []
  | some cs => cs.map fun cite =>
      { text := pySlice answer cite.start cite.stop
        doc_ids := cite.document_ids }

/-- `MedicalChatbot.answer_with_chat`: builds the combined prompt, calls
the generative backend, and maps the raw citations over the answer text. -/
def answer_with_chat (gen : String → List Doc → GenResponse)
    (query : String) (documents : List Doc) (history : List Turn) :
    String × List StructuredCitation :=
  let response := gen (combinedQuery query history) documents
  (response.text, mapCitations response.text response.citations)

/-- The canned greeting reply of `MedicalChatbot.chat`. -/
def greeting_answer : String :=
  "Hello! How can I help with your medical questions today?"

/-- The fallback answer when retrieval yields no chunks. -/
def no_retrieval_answer : String :=
  "I\x27m sorry, I couldn\x27t find any relevant medical information about that. Please try rephrasing your question."

/-- The fallback answer when selection yields no chunks. -/
def no_selection_answer : String :=
  "I\x27m sorry, I couldn\x27t find any relevant medical information. Please consider consulting a healthcare professional for personalized advice."

/-- The suffix appended to queries containing the word monitoring. -/
def monitoring_suffix : String := " Focus on monitoring parameters only."

/-- The tail of `MedicalChatbot.chat` after retrieval succeeded:
rerank to the top 3, fall back if nothing survives, otherwise call
`answer_with_chat` with the original query and assemble the result. -/
def select_and_answer (gen : String → List Doc → GenResponse)
    (query : String) (history : List Turn) (retrieved_docs : List Doc) :
    PipelineResult :=
  let top_docs := rerank_chunks query retrieved_docs 3
  if top_docs.isEmpty then
    { query := query, answer := no_selection_answer, citations := [] }
  else
    let result := answer_with_chat gen query top_docs history
    { query := query, answer := result.1, citations := result.2 }

/-- `MedicalChatbot.chat`: greeting short-circuit, query enhancement for
monitoring questions, retrieval with limit 8, empty-retrieval fallback,
then selection and synthesis. -/
def chat (search_chunks : String → Nat → Except String SearchResults)
    (gen : String → List Doc → GenResponse)
    (query : String) (history : List Turn) : PipelineResult :=
  if is_simple_greeting query then
    { query := query, answer := greeting_answer, citations := [] }
  else
    let enhanced_query :=
      if containsSubstr (pyLower query) "monitoring" then query ++ monitoring_suffix
      else query
    let retrieved_docs := get_relevant_chunks search_chunks enhanced_query 8
    if retrieved_docs.isEmpty then
      { query := query, answer := no_retrieval_answer, citations := [] }
    else
      select_and_answer gen query history retrieved_docs

/-! ## Backends used to exercise the theorems on concrete inputs -/

/-- A generative backend that always returns the scenario-3 answer with
one citation over its first five characters. -/
def demoGen : String → List Doc → GenResponse :=
  fun _ _ => { text := "Fever is common.", citations := some [⟨0, 5, ["doc_2"]⟩] }

/-- Two concrete hits for a successful search call. -/
def demoHits : List Hit :=
  [⟨[("text", "Fever is a common symptom.")]⟩, ⟨[("text", "Hydration helps recovery.")]⟩]

/-- A search backend that always succeeds with `demoHits`. -/
def demoSearch : String → Nat → Except String SearchResults :=
  fun _ _ => Except.ok ⟨demoHits⟩

/-- A search backend that always fails. -/
def demoFailSearch : String → Nat → Except String SearchResults :=
  fun _ _ => Except.error "backend unreachable"

/-- One concrete retrieved document. -/
def demoDocs : List Doc := [⟨"doc_0", "Fever facts"⟩]

/-! ## Helper lemmas -/

/-- Joining a list extended by one element appends one more separator
and the element. -/
theorem pyJoin_append_singleton (sep x a : String) (t : List String) :
    pyJoin sep ((a :: t) ++ [x]) = pyJoin sep (a :: t) ++ sep ++ x := by
  simp [pyJoin, List.foldl_append]

/-- Each greeting phrase is already in normal form. -/
theorem normalize_query_fixed : ∀ g ∈ greetings, normalize_query g = g := by decide

/-! ## Claim theorems -/

/-- C3: a string is accepted by the greeting detector exactly when its
normalisation (drop non-alphanumeric non-space characters, strip,
lowercase) agrees with the normalisation of one of the fixed greeting
phrases; so every case or punctuation variant of a greeting is accepted
and nothing else is. -/
theorem greeting_detection (q : String) :
    is_simple_greeting q = true ↔ ∃ g ∈ greetings, normalize_query q = normalize_query g := by
  constructor
  · intro h
    have hmem : normalize_query q ∈ greetings := by
      simpa [is_simple_greeting, List.contains] using h
    exact ⟨normalize_query q, hmem, (normalize_query_fixed _ hmem).symm⟩
  · rintro ⟨g, hg, he⟩
    have hmem : normalize_query q ∈ greetings := by
      rw [he, normalize_query_fixed g hg]; exact hg
    simpa [is_simple_greeting, List.contains] using hmem

/-- C5: the selector returns at most `top_n` documents, every returned
document occurs in the input, and the output is exactly the length
`top_n` prefix of the input, hence input order is preserved. -/
theorem select_truncates (q : String) (docs : List Doc) (n : Nat) :
    (rerank_chunks q docs n).length ≤ n ∧
    (∀ d ∈ rerank_chunks q docs n, d ∈ docs) ∧
    rerank_chunks q docs n = docs.take n ∧
    rerank_chunks q docs n <+: docs := by
  have heq : rerank_chunks q docs n = docs.take n := by
    cases docs with
    | nil => simp [rerank_chunks]
    | cons a t => simp [rerank_chunks]
  refine ⟨?_, ?_, heq, ?_⟩
  · rw [heq]; exact List.length_take_le n docs
  · intro d hd
    rw [heq] at hd
    exact List.take_subset n docs hd
  · rw [heq]
    exact List.take_prefix n docs

/-- C10: applying the selector twice with the same bound gives the same
result as applying it once. -/
theorem select_idempotent (q : String) (docs : List Doc) (n : Nat) :
    rerank_chunks q (rerank_chunks q docs n) n = rerank_chunks q docs n := by
  cases docs with
  | nil => simp [rerank_chunks]
  | cons a t =>
    cases n with
    | zero => simp [rerank_chunks]
    | succ m => simp [rerank_chunks, List.take_take]

/-- C8: the combined prompt is the history turns in original order, each
as a line made of the capitalized role, a colon and the content, with
the line for the new query appended last; for an empty history it is
exactly the query; and the synthesizer sends precisely this prompt to
the generative backend. -/
theorem combined_prompt_serialization (q : String) (hist : List Turn) :
    (combinedQuery q hist =
      (if hist.isEmpty then q
       else pyJoin "\n"
         ((hist.map fun m => pyCapitalize m.role ++ ": " ++ m.content) ++ ["User: " ++ q]))) ∧
    (∀ (gen : String → List Doc → GenResponse) (docs : List Doc),
      answer_with_chat gen q docs hist =
        ((gen (combinedQuery q hist) docs).text,
         mapCitations (gen (combinedQuery q hist) docs).text
           (gen (combinedQuery q hist) docs).citations)) := by
  constructor
  · cases hist with
    | nil => simp [combinedQuery]
    | cons a t =>
      have hx := pyJoin_append_singleton "\n" ("User: " ++ q)
        (pyCapitalize a.role ++ ": " ++ a.content)
        (t.map fun m => pyCapitalize m.role ++ ": " ++ m.content)
      have hlit : ("\nUser: " : String) = "\n" ++ "User: " := rfl
      simp only [combinedQuery, List.isEmpty_cons, List.map_cons, ite_false, Bool.false_eq_true]
      rw [hx, hlit]
      simp only [String.append_assoc]
  · intro gen docs
    rfl

/-- For in-bounds offsets the Python slice is the plain substring. -/
theorem pySlice_eq_sliceNat (s : String) (a b : Int)
    (h0 : 0 ≤ a) (hab : a ≤ b) (hbl : b ≤ (s.length : Int)) :
    pySlice s a b = sliceNat s a.toNat b.toNat := by
  have ha2 : ¬ a < 0 := not_lt.mpr h0
  have hb2 : ¬ b < 0 := not_lt.mpr (le_trans h0 hab)
  have h1 : a.toNat ≤ s.length := by
    have h := Int.toNat_le_toNat (le_trans hab hbl)
    simpa using h
  have h2 : b.toNat ≤ s.length := by
    have h := Int.toNat_le_toNat hbl
    simpa using h
  unfold pySlice sliceNat pyIndex
  rw [if_neg hb2, if_neg ha2, Nat.min_eq_left h2, Nat.min_eq_left h1]
  rw [List.drop_take]

/-- C1: when every raw citation has offsets `0 ≤ start ≤ end ≤ length`,
the mapper returns, in the order given, one structured citation per raw
citation whose text is the substring of the answer between the offsets
and whose document ids are the raw ids; an absent citation list maps to
the empty list. -/
theorem citation_mapping_round_trip (answer : String) (cs : List RawCitation)
    (hb : ∀ c ∈ cs, 0 ≤ c.start ∧ c.start ≤ c.stop ∧ c.stop ≤ (answer.length : Int)) :
    mapCitations answer (some cs) =
      cs.map (fun c =>
        { text := sliceNat answer c.start.toNat c.stop.toNat
          doc_ids := c.document_ids }) ∧
    mapCitations answer none = [] := by
  refine ⟨?_, rfl⟩
  unfold mapCitations
  apply List.map_congr_left
  intro c hc
  obtain ⟨h0, hse, hel⟩ := hb c hc
  rw [pySlice_eq_sliceNat answer c.start c.stop h0 hse hel]

/-- C7: for every answer and every raw citation list, including
out-of-range or inverted offsets, the mapper is total: it returns one
structured citation per raw citation, each produced text is a
contiguous (clamped) segment of the answer, document ids pass through
unchanged, and an absent list maps to the empty list. -/
theorem citation_mapping_safe (answer : String) (cs : List RawCitation) :
    (mapCitations answer (some cs)).length = cs.length ∧
    (∀ sc ∈ mapCitations answer (some cs),
      ∃ pre post : List Char, pre ++ sc.text.data ++ post = answer.data) ∧
    (mapCitations answer (some cs)).map (fun sc => sc.doc_ids) =
      cs.map (fun c => c.document_ids) ∧
    mapCitations answer none = [] := by
  refine ⟨by simp [mapCitations], ?_, by simp [mapCitations], rfl⟩
  intro sc hsc
  simp only [mapCitations, List.mem_map] at hsc
  obtain ⟨c, hc, hEq⟩ := hsc
  have hsuf : (answer.data.take (pyIndex answer.length c.stop)).drop
      (pyIndex answer.length c.start) <:+ answer.data.take (pyIndex answer.length c.stop) :=
    List.drop_suffix _ _
  have hpre : answer.data.take (pyIndex answer.length c.stop) <+: answer.data :=
    List.take_prefix _ _
  have hsufi := List.IsSuffix.isInfix hsuf
  have hprei := List.IsPrefix.isInfix hpre
  have hinf := List.IsInfix.trans hsufi hprei
  obtain ⟨pre, post, hpp⟩ := hinf
  refine ⟨pre, post, ?_⟩
  rw [← hEq]
  simpa [pySlice] using hpp


/-- The titles produced by the retriever are the positional labels. -/
theorem retrieved_titles (hits : List Hit) :
    ((hits.enum.map hitDoc).map fun d => d.title) =
      (List.range hits.length).map fun i => "doc_" ++ toString i := by
  rw [List.map_map]
  have hcomp : ((fun d : Doc => d.title) ∘ hitDoc) =
      (fun i => "doc_" ++ toString i) ∘ Prod.fst := rfl
  rw [hcomp, ← List.map_map, List.enum_map_fst]

/-- C2: any backend error makes the retriever return the empty list (the
error is absorbed at the retriever boundary, whose result type carries
no error at all); the document titles are exactly `doc_0, doc_1, ...`
in hit order; and when the backend honours the requested `top_k` bound
the retriever returns at most `limit` chunks. -/
theorem retrieval_error_resilient
    (search : String → Nat → Except String SearchResults) (q : String) (limit : Nat) :
    (∀ e, search q limit = Except.error e → get_relevant_chunks search q limit = []) ∧
    ((get_relevant_chunks search q limit).map (fun d => d.title) =
      (List.range (get_relevant_chunks search q limit).length).map
        fun i => "doc_" ++ toString i) ∧
    (∀ res, search q limit = Except.ok res → res.hits.length ≤ limit →
      (get_relevant_chunks search q limit).length ≤ limit) := by
  cases hcall : search q limit with
  | error e =>
    have hget : get_relevant_chunks search q limit = [] := by
      simp [get_relevant_chunks, hcall]
    refine ⟨fun _ _ => hget, by simp [hget], ?_⟩
    intro res hres
    simp at hres
  | ok res =>
    have hget : get_relevant_chunks search q limit =
        (if res.hits.isEmpty then [] else res.hits.enum.map hitDoc) := by
      simp [get_relevant_chunks, hcall]
    refine ⟨?_, ?_, ?_⟩
    · intro e he
      simp at he
    · cases hhits : res.hits with
      | nil => simp [hget, hhits]
      | cons h t =>
        rw [hget, hhits]
        simp only [List.isEmpty_cons, ite_false, Bool.false_eq_true]
        have hT := retrieved_titles (h :: t)
        simpa using hT
    · intro res2 hres2 hlen
      injection hres2 with hres3
      subst hres3
      rw [hget]
      cases hhits : res.hits with
      | nil => simp
      | cons h t =>
        simp only [List.isEmpty_cons, ite_false, Bool.false_eq_true,
          List.length_map, List.enum_length]
        rw [hhits] at hlen
        exact hlen

/-- C4: for a non-greeting query containing the word monitoring
(case-insensitively), the orchestrator retrieves with the query plus
the focusing suffix appended exactly once, the synthesizer (inside
`select_and_answer`) is invoked with the original query text, and in
every branch the returned `query` field is the original query. -/
theorem chat_monitoring_augmented
    (search : String → Nat → Except String SearchResults)
    (gen : String → List Doc → GenResponse) (q : String) (hist : List Turn)
    (hgreet : is_simple_greeting q = false)
    (hmon : containsSubstr (pyLower q) "monitoring" = true) :
    (chat search gen q hist =
      (if (get_relevant_chunks search (q ++ monitoring_suffix) 8).isEmpty then
        { query := q, answer := no_retrieval_answer, citations := [] }
       else select_and_answer gen q hist
         (get_relevant_chunks search (q ++ monitoring_suffix) 8))) ∧
    (chat search gen q hist).query = q := by
  have hmain : chat search gen q hist =
      (if (get_relevant_chunks search (q ++ monitoring_suffix) 8).isEmpty then
        { query := q, answer := no_retrieval_answer, citations := [] }
       else select_and_answer gen q hist
         (get_relevant_chunks search (q ++ monitoring_suffix) 8)) := by
    simp [chat, hgreet, hmon]
  refine ⟨hmain, ?_⟩
  rw [hmain]
  by_cases hemp : (get_relevant_chunks search (q ++ monitoring_suffix) 8).isEmpty
  · simp [hemp]
  · simp only [hemp, ite_false, Bool.false_eq_true]
    simp [select_and_answer]
    split
    · rfl
    · rfl

/-- C9: for every non-empty retrieved chunk list the selector output
with bound 3 is non-empty, so the post-retrieval stage always reaches
synthesis and the empty-selection fallback branch is never taken. -/
theorem selection_fallback_unreachable
    (gen : String → List Doc → GenResponse) (q : String) (hist : List Turn)
    (docs : List Doc) (hne : docs ≠ []) :
    rerank_chunks q docs 3 ≠ [] ∧
    select_and_answer gen q hist docs =
      { query := q,
        answer := (answer_with_chat gen q (rerank_chunks q docs 3) hist).1,
        citations := (answer_with_chat gen q (rerank_chunks q docs 3) hist).2 } := by
  obtain ⟨a, t, rfl⟩ := List.exists_cons_of_ne_nil hne
  have hr : rerank_chunks q (a :: t) 3 = a :: t.take 2 := by
    simp [rerank_chunks]
  refine ⟨by simp [hr], ?_⟩
  simp [select_and_answer, hr]

/-- C6: the two fallback outcomes are distinguishable: the no-retrieval
answer string differs from the no-selection answer string, the
post-retrieval stage maps an empty chunk list to the no-selection
fallback with empty citations, and the orchestrator maps empty
retrieval to the no-retrieval fallback with empty citations. -/
theorem fallback_answers_distinct :
    no_retrieval_answer ≠ no_selection_answer ∧
    (∀ (gen : String → List Doc → GenResponse) (q : String) (hist : List Turn),
      select_and_answer gen q hist [] =
        { query := q, answer := no_selection_answer, citations := [] }) ∧
    (∀ (search : String → Nat → Except String SearchResults)
       (gen : String → List Doc → GenResponse) (q : String) (hist : List Turn),
      is_simple_greeting q = false →
      get_relevant_chunks search
        (if containsSubstr (pyLower q) "monitoring" then q ++ monitoring_suffix else q) 8 = [] →
      chat search gen q hist =
        { query := q, answer := no_retrieval_answer, citations := [] }) := by
  refine ⟨by decide, ?_, ?_⟩
  · intro gen q hist
    simp [select_and_answer, rerank_chunks]
  · intro search gen q hist hgreet hempty
    simp [chat, hgreet, hempty]

/-- Concrete instance of C1 at the scenario-3 citation. -/
theorem citation_mapping_round_trip_witness :
    (∀ c ∈ [(⟨0, 5, ["doc_2"]⟩ : RawCitation)],
      0 ≤ c.start ∧ c.start ≤ c.stop ∧ c.stop ≤ (("Fever is common." : String).length : Int)) ∧
    (mapCitations "Fever is common." (some [(⟨0, 5, ["doc_2"]⟩ : RawCitation)]) =
      [(⟨0, 5, ["doc_2"]⟩ : RawCitation)].map (fun c =>
        { text := sliceNat "Fever is common." c.start.toNat c.stop.toNat
          doc_ids := c.document_ids }) ∧
     mapCitations "Fever is common." none = []) :=
  ⟨by decide,
   citation_mapping_round_trip "Fever is common." [⟨0, 5, ["doc_2"]⟩] (by decide)⟩

/-- Concrete instance of C2 at a failing and at a succeeding backend. -/
theorem retrieval_error_resilient_witness :
    (demoFailSearch "flu" 8 = Except.error "backend unreachable" ∧
     get_relevant_chunks demoFailSearch "flu" 8 = []) ∧
    (demoSearch "flu" 8 = Except.ok ⟨demoHits⟩ ∧
     (SearchResults.mk demoHits).hits.length ≤ 8 ∧
     (get_relevant_chunks demoSearch "flu" 8).length ≤ 8) :=
  ⟨⟨rfl, (retrieval_error_resilient demoFailSearch "flu" 8).1 "backend unreachable" rfl⟩,
   ⟨rfl, by decide,
    (retrieval_error_resilient demoSearch "flu" 8).2.2 ⟨demoHits⟩ rfl (by decide)⟩⟩

/-- Concrete instance of C4 at a monitoring query. -/
theorem chat_monitoring_augmented_witness :
    is_simple_greeting "What monitoring is required" = false ∧
    containsSubstr (pyLower "What monitoring is required") "monitoring" = true ∧
    (chat demoSearch demoGen "What monitoring is required" []).query =
      "What monitoring is required" :=
  ⟨by decide, by decide,
   (chat_monitoring_augmented demoSearch demoGen "What monitoring is required" []
     (by decide) (by decide)).2⟩

/-- Concrete instance of C6 at a failing backend. -/
theorem fallback_answers_distinct_witness :
    is_simple_greeting "What causes fever" = false ∧
    get_relevant_chunks demoFailSearch
      (if containsSubstr (pyLower "What causes fever") "monitoring" then
        "What causes fever" ++ monitoring_suffix
       else "What causes fever") 8 = [] ∧
    chat demoFailSearch demoGen "What causes fever" [] =
      { query := "What causes fever", answer := no_retrieval_answer, citations := [] } :=
  ⟨by decide, by decide,
   fallback_answers_distinct.2.2 demoFailSearch demoGen "What causes fever" []
     (by decide) (by decide)⟩

/-- Concrete instance of C9 at a one-element chunk list. -/
theorem selection_fallback_unreachable_witness :
    demoDocs ≠ [] ∧ rerank_chunks "fever" demoDocs 3 ≠ [] :=
  ⟨by decide,
   (selection_fallback_unreachable demoGen "fever" [] demoDocs (by decide)).1⟩
